import Mathlib

set_option linter.unusedVariables false

/-!
Shallow embedding of `src/src/sys/stubs/nvEncodeAPI.c`.

The file defines 43 C functions, every one with the body `{ return 0; }`.
We embed each as a pure Lean function taking its C arguments plus the
program memory and returning the `NVENCSTATUS` value together with the
memory after the call.  Pointer-typed arguments (`void*`, struct
pointers, and the `NV_ENC_*_PTR` typedefs, which are all `void*`) are
machine addresses modelled as `Nat`, with `0` the null pointer.  Scalar
arguments (`uint32_t`, `uint64_t`, `int`, and the `NV_ENC_TUNING_INFO`
enum) are modelled as `Nat`.  The vendor header `nvEncodeAPI.h` is not
part of the repository; the by-value `GUID` argument type is modelled
after the standard 16-byte GUID layout, which is harmless because no
stub body ever reads any of its arguments.
-/

namespace NvStub

/-- A machine address; `0` is the null pointer. -/
abbrev Ptr := Nat

/-- Program memory: a total map from addresses to stored values. -/
def Mem := Nat → Nat

/-- The by-value `GUID` argument (standard 16-byte GUID layout).  No
stub ever reads a `GUID` argument. -/
structure GUID where
  data1 : Nat
  data2 : Nat
  data3 : Nat
  data4 : List Nat

def NvEncOpenEncodeSession (device : Ptr) (deviceType : Nat) (encoder : Ptr) (m : Mem) : Nat × Mem := (0, m)

def NvEncGetEncodeGUIDCount (encoder : Ptr) (encodeGUIDCount : Ptr) (m : Mem) : Nat × Mem := (0, m)

def NvEncGetEncodeGUIDs (encoder : Ptr) (GUIDs : Ptr) (guidArraySize : Nat) (GUIDCount : Ptr) (m : Mem) : Nat × Mem := (0, m)

def NvEncGetEncodeProfileGUIDCount (encoder : Ptr) (encodeGUID : GUID) (encodeProfileGUIDCount : Ptr) (m : Mem) : Nat × Mem := (0, m)

def NvEncGetEncodeProfileGUIDs (encoder : Ptr) (encodeGUID : GUID) (profileGUIDs : Ptr) (guidArraySize : Nat) (GUIDCount : Ptr) (m : Mem) : Nat × Mem := (0, m)

def NvEncGetInputFormatCount (encoder : Ptr) (encodeGUID : GUID) (inputFmtCount : Ptr) (m : Mem) : Nat × Mem := (0, m)

def NvEncGetInputFormats (encoder : Ptr) (encodeGUID : GUID) (inputFmts : Ptr) (inputFmtArraySize : Nat) (inputFmtCount : Ptr) (m : Mem) : Nat × Mem := (0, m)

def NvEncGetEncodeCaps (encoder : Ptr) (encodeGUID : GUID) (capsParam : Ptr) (capsVal : Ptr) (m : Mem) : Nat × Mem := (0, m)

def NvEncGetEncodePresetCount (encoder : Ptr) (encodeGUID : GUID) (encodePresetGUIDCount : Ptr) (m : Mem) : Nat × Mem := (0, m)

def NvEncGetEncodePresetGUIDs (encoder : Ptr) (encodeGUID : GUID) (presetGUIDs : Ptr) (guidArraySize : Nat) (encodePresetGUIDCount : Ptr) (m : Mem) : Nat × Mem := (0, m)

def NvEncGetEncodePresetConfig (encoder : Ptr) (encodeGUID : GUID) (presetGUID : GUID) (presetConfig : Ptr) (m : Mem) : Nat × Mem := (0, m)

def NvEncGetEncodePresetConfigEx (encoder : Ptr) (encodeGUID : GUID) (presetGUID : GUID) (tuningInfo : Nat) (presetConfig : Ptr) (m : Mem) : Nat × Mem := (0, m)

def NvEncInitializeEncoder (encoder : Ptr) (createEncodeParams : Ptr) (m : Mem) : Nat × Mem := (0, m)

def NvEncCreateInputBuffer (encoder : Ptr) (createInputBufferParams : Ptr) (m : Mem) : Nat × Mem := (0, m)

def NvEncDestroyInputBuffer (encoder : Ptr) (inputBuffer : Ptr) (m : Mem) : Nat × Mem := (0, m)

def NvEncSetIOCudaStreams (encoder : Ptr) (inputStream : Ptr) (outputStream : Ptr) (m : Mem) : Nat × Mem := (0, m)

def NvEncCreateBitstreamBuffer (encoder : Ptr) (createBitstreamBufferParams : Ptr) (m : Mem) : Nat × Mem := (0, m)

def NvEncDestroyBitstreamBuffer (encoder : Ptr) (bitstreamBuffer : Ptr) (m : Mem) : Nat × Mem := (0, m)

def NvEncEncodePicture (encoder : Ptr) (encodePicParams : Ptr) (m : Mem) : Nat × Mem := (0, m)

def NvEncLockBitstream (encoder : Ptr) (lockBitstreamBufferParams : Ptr) (m : Mem) : Nat × Mem := (0, m)

def NvEncUnlockBitstream (encoder : Ptr) (bitstreamBuffer : Ptr) (m : Mem) : Nat × Mem := (0, m)

def NvEncRestoreEncoderState (encoder : Ptr) (restoreState : Ptr) (m : Mem) : Nat × Mem := (0, m)

def NvEncLockInputBuffer (encoder : Ptr) (lockInputBufferParams : Ptr) (m : Mem) : Nat × Mem := (0, m)

def NvEncUnlockInputBuffer (encoder : Ptr) (inputBuffer : Ptr) (m : Mem) : Nat × Mem := (0, m)

def NvEncGetEncodeStats (encoder : Ptr) (encodeStats : Ptr) (m : Mem) : Nat × Mem := (0, m)

def NvEncGetSequenceParams (encoder : Ptr) (sequenceParamPayload : Ptr) (m : Mem) : Nat × Mem := (0, m)

def NvEncGetSequenceParamEx (encoder : Ptr) (encInitParams : Ptr) (sequenceParamPayload : Ptr) (m : Mem) : Nat × Mem := (0, m)

def NvEncRegisterAsyncEvent (encoder : Ptr) (eventParams : Ptr) (m : Mem) : Nat × Mem := (0, m)

def NvEncUnregisterAsyncEvent (encoder : Ptr) (eventParams : Ptr) (m : Mem) : Nat × Mem := (0, m)

def NvEncMapInputResource (encoder : Ptr) (mapInputResParams : Ptr) (m : Mem) : Nat × Mem := (0, m)

def NvEncUnmapInputResource (encoder : Ptr) (mappedInputBuffer : Ptr) (m : Mem) : Nat × Mem := (0, m)

def NvEncDestroyEncoder (encoder : Ptr) (m : Mem) : Nat × Mem := (0, m)

def NvEncInvalidateRefFrames (encoder : Ptr) (invalidRefFrameTimeStamp : Nat) (m : Mem) : Nat × Mem := (0, m)

def NvEncOpenEncodeSessionEx (openSessionExParams : Ptr) (encoder : Ptr) (m : Mem) : Nat × Mem := (0, m)

def NvEncRegisterResource (encoder : Ptr) (registerResParams : Ptr) (m : Mem) : Nat × Mem := (0, m)

def NvEncUnregisterResource (encoder : Ptr) (registeredResource : Ptr) (m : Mem) : Nat × Mem := (0, m)

def NvEncReconfigureEncoder (encoder : Ptr) (reInitEncodeParams : Ptr) (m : Mem) : Nat × Mem := (0, m)

def NvEncCreateMVBuffer (encoder : Ptr) (createMVBufferParams : Ptr) (m : Mem) : Nat × Mem := (0, m)

def NvEncDestroyMVBuffer (encoder : Ptr) (mvBuffer : Ptr) (m : Mem) : Nat × Mem := (0, m)

def NvEncRunMotionEstimationOnly (encoder : Ptr) (meOnlyParams : Ptr) (m : Mem) : Nat × Mem := (0, m)

def NvEncodeAPIGetMaxSupportedVersion (version : Ptr) (m : Mem) : Nat × Mem := (0, m)

def NvEncLookaheadPicture (encoder : Ptr) (lookaheadParamas : Ptr) (m : Mem) : Nat × Mem := (0, m)

def NvEncodeAPICreateInstance (functionList : Ptr) (m : Mem) : Nat × Mem := (0, m)

/-- One call into the stub surface: a constructor per C function defined
in `nvEncodeAPI.c`, carrying that function's arguments. -/
inductive Call where
  | openEncodeSession (device : Ptr) (deviceType : Nat) (encoder : Ptr)
  | getEncodeGUIDCount (encoder : Ptr) (encodeGUIDCount : Ptr)
  | getEncodeGUIDs (encoder : Ptr) (GUIDs : Ptr) (guidArraySize : Nat) (GUIDCount : Ptr)
  | getEncodeProfileGUIDCount (encoder : Ptr) (encodeGUID : GUID) (encodeProfileGUIDCount : Ptr)
  | getEncodeProfileGUIDs (encoder : Ptr) (encodeGUID : GUID) (profileGUIDs : Ptr) (guidArraySize : Nat) (GUIDCount : Ptr)
  | getInputFormatCount (encoder : Ptr) (encodeGUID : GUID) (inputFmtCount : Ptr)
  | getInputFormats (encoder : Ptr) (encodeGUID : GUID) (inputFmts : Ptr) (inputFmtArraySize : Nat) (inputFmtCount : Ptr)
  | getEncodeCaps (encoder : Ptr) (encodeGUID : GUID) (capsParam : Ptr) (capsVal : Ptr)
  | getEncodePresetCount (encoder : Ptr) (encodeGUID : GUID) (encodePresetGUIDCount : Ptr)
  | getEncodePresetGUIDs (encoder : Ptr) (encodeGUID : GUID) (presetGUIDs : Ptr) (guidArraySize : Nat) (encodePresetGUIDCount : Ptr)
  | getEncodePresetConfig (encoder : Ptr) (encodeGUID : GUID) (presetGUID : GUID) (presetConfig : Ptr)
  | getEncodePresetConfigEx (encoder : Ptr) (encodeGUID : GUID) (presetGUID : GUID) (tuningInfo : Nat) (presetConfig : Ptr)
  | initializeEncoder (encoder : Ptr) (createEncodeParams : Ptr)
  | createInputBuffer (encoder : Ptr) (createInputBufferParams : Ptr)
  | destroyInputBuffer (encoder : Ptr) (inputBuffer : Ptr)
  | setIOCudaStreams (encoder : Ptr) (inputStream : Ptr) (outputStream : Ptr)
  | createBitstreamBuffer (encoder : Ptr) (createBitstreamBufferParams : Ptr)
  | destroyBitstreamBuffer (encoder : Ptr) (bitstreamBuffer : Ptr)
  | encodePicture (encoder : Ptr) (encodePicParams : Ptr)
  | lockBitstream (encoder : Ptr) (lockBitstreamBufferParams : Ptr)
  | unlockBitstream (encoder : Ptr) (bitstreamBuffer : Ptr)
  | restoreEncoderState (encoder : Ptr) (restoreState : Ptr)
  | lockInputBuffer (encoder : Ptr) (lockInputBufferParams : Ptr)
  | unlockInputBuffer (encoder : Ptr) (inputBuffer : Ptr)
  | getEncodeStats (encoder : Ptr) (encodeStats : Ptr)
  | getSequenceParams (encoder : Ptr) (sequenceParamPayload : Ptr)
  | getSequenceParamEx (encoder : Ptr) (encInitParams : Ptr) (sequenceParamPayload : Ptr)
  | registerAsyncEvent (encoder : Ptr) (eventParams : Ptr)
  | unregisterAsyncEvent (encoder : Ptr) (eventParams : Ptr)
  | mapInputResource (encoder : Ptr) (mapInputResParams : Ptr)
  | unmapInputResource (encoder : Ptr) (mappedInputBuffer : Ptr)
  | destroyEncoder (encoder : Ptr)
  | invalidateRefFrames (encoder : Ptr) (invalidRefFrameTimeStamp : Nat)
  | openEncodeSessionEx (openSessionExParams : Ptr) (encoder : Ptr)
  | registerResource (encoder : Ptr) (registerResParams : Ptr)
  | unregisterResource (encoder : Ptr) (registeredResource : Ptr)
  | reconfigureEncoder (encoder : Ptr) (reInitEncodeParams : Ptr)
  | createMVBuffer (encoder : Ptr) (createMVBufferParams : Ptr)
  | destroyMVBuffer (encoder : Ptr) (mvBuffer : Ptr)
  | runMotionEstimationOnly (encoder : Ptr) (meOnlyParams : Ptr)
  | getMaxSupportedVersion (version : Ptr)
  | lookaheadPicture (encoder : Ptr) (lookaheadParamas : Ptr)
  | createInstance (functionList : Ptr)

/-- Execute one call of the stub surface on a memory, dispatching to the
embedded C function; yields the returned `NVENCSTATUS` and the memory
after the call. -/
def exec (c : Call) (m : Mem) : Nat × Mem :=
  match c with
  | .openEncodeSession device deviceType encoder => NvEncOpenEncodeSession device deviceType encoder m
  | .getEncodeGUIDCount encoder encodeGUIDCount => NvEncGetEncodeGUIDCount encoder encodeGUIDCount m
  | .getEncodeGUIDs encoder GUIDs guidArraySize GUIDCount => NvEncGetEncodeGUIDs encoder GUIDs guidArraySize GUIDCount m
  | .getEncodeProfileGUIDCount encoder encodeGUID encodeProfileGUIDCount => NvEncGetEncodeProfileGUIDCount encoder encodeGUID encodeProfileGUIDCount m
  | .getEncodeProfileGUIDs encoder encodeGUID profileGUIDs guidArraySize GUIDCount => NvEncGetEncodeProfileGUIDs encoder encodeGUID profileGUIDs guidArraySize GUIDCount m
  | .getInputFormatCount encoder encodeGUID inputFmtCount => NvEncGetInputFormatCount encoder encodeGUID inputFmtCount m
  | .getInputFormats encoder encodeGUID inputFmts inputFmtArraySize inputFmtCount => NvEncGetInputFormats encoder encodeGUID inputFmts inputFmtArraySize inputFmtCount m
  | .getEncodeCaps encoder encodeGUID capsParam capsVal => NvEncGetEncodeCaps encoder encodeGUID capsParam capsVal m
  | .getEncodePresetCount encoder encodeGUID encodePresetGUIDCount => NvEncGetEncodePresetCount encoder encodeGUID encodePresetGUIDCount m
  | .getEncodePresetGUIDs encoder encodeGUID presetGUIDs guidArraySize encodePresetGUIDCount => NvEncGetEncodePresetGUIDs encoder encodeGUID presetGUIDs guidArraySize encodePresetGUIDCount m
  | .getEncodePresetConfig encoder encodeGUID presetGUID presetConfig => NvEncGetEncodePresetConfig encoder encodeGUID presetGUID presetConfig m
  | .getEncodePresetConfigEx encoder encodeGUID presetGUID tuningInfo presetConfig => NvEncGetEncodePresetConfigEx encoder encodeGUID presetGUID tuningInfo presetConfig m
  | .initializeEncoder encoder createEncodeParams => NvEncInitializeEncoder encoder createEncodeParams m
  | .createInputBuffer encoder createInputBufferParams => NvEncCreateInputBuffer encoder createInputBufferParams m
  | .destroyInputBuffer encoder inputBuffer => NvEncDestroyInputBuffer encoder inputBuffer m
  | .setIOCudaStreams encoder inputStream outputStream => NvEncSetIOCudaStreams encoder inputStream outputStream m
  | .createBitstreamBuffer encoder createBitstreamBufferParams => NvEncCreateBitstreamBuffer encoder createBitstreamBufferParams m
  | .destroyBitstreamBuffer encoder bitstreamBuffer => NvEncDestroyBitstreamBuffer encoder bitstreamBuffer m
  | .encodePicture encoder encodePicParams => NvEncEncodePicture encoder encodePicParams m
  | .lockBitstream encoder lockBitstreamBufferParams => NvEncLockBitstream encoder lockBitstreamBufferParams m
  | .unlockBitstream encoder bitstreamBuffer => NvEncUnlockBitstream encoder bitstreamBuffer m
  | .restoreEncoderState encoder restoreState => NvEncRestoreEncoderState encoder restoreState m
  | .lockInputBuffer encoder lockInputBufferParams => NvEncLockInputBuffer encoder lockInputBufferParams m
  | .unlockInputBuffer encoder inputBuffer => NvEncUnlockInputBuffer encoder inputBuffer m
  | .getEncodeStats encoder encodeStats => NvEncGetEncodeStats encoder encodeStats m
  | .getSequenceParams encoder sequenceParamPayload => NvEncGetSequenceParams encoder sequenceParamPayload m
  | .getSequenceParamEx encoder encInitParams sequenceParamPayload => NvEncGetSequenceParamEx encoder encInitParams sequenceParamPayload m
  | .registerAsyncEvent encoder eventParams => NvEncRegisterAsyncEvent encoder eventParams m
  | .unregisterAsyncEvent encoder eventParams => NvEncUnregisterAsyncEvent encoder eventParams m
  | .mapInputResource encoder mapInputResParams => NvEncMapInputResource encoder mapInputResParams m
  | .unmapInputResource encoder mappedInputBuffer => NvEncUnmapInputResource encoder mappedInputBuffer m
  | .destroyEncoder encoder => NvEncDestroyEncoder encoder m
  | .invalidateRefFrames encoder invalidRefFrameTimeStamp => NvEncInvalidateRefFrames encoder invalidRefFrameTimeStamp m
  | .openEncodeSessionEx openSessionExParams encoder => NvEncOpenEncodeSessionEx openSessionExParams encoder m
  | .registerResource encoder registerResParams => NvEncRegisterResource encoder registerResParams m
  | .unregisterResource encoder registeredResource => NvEncUnregisterResource encoder registeredResource m
  | .reconfigureEncoder encoder reInitEncodeParams => NvEncReconfigureEncoder encoder reInitEncodeParams m
  | .createMVBuffer encoder createMVBufferParams => NvEncCreateMVBuffer encoder createMVBufferParams m
  | .destroyMVBuffer encoder mvBuffer => NvEncDestroyMVBuffer encoder mvBuffer m
  | .runMotionEstimationOnly encoder meOnlyParams => NvEncRunMotionEstimationOnly encoder meOnlyParams m
  | .getMaxSupportedVersion version => NvEncodeAPIGetMaxSupportedVersion version m
  | .lookaheadPicture encoder lookaheadParamas => NvEncLookaheadPicture encoder lookaheadParamas m
  | .createInstance functionList => NvEncodeAPICreateInstance functionList m

/-- Execute a sequence of calls, threading the memory through. -/
def run (cs : List Call) (m : Mem) : Mem :=
  cs.foldl (fun m c => (exec c m).2) m

/-- A schedule of calls issued by several callers: each entry pairs a
caller (thread) identifier with the call it makes; the list order is the
interleaved execution order.  Execution ignores who made the call. -/
def runSched (sched : List (Nat × Call)) (m : Mem) : Mem :=
  run (sched.map Prod.snd) m

/-- The names of the functions defined in `nvEncodeAPI.c`, in source
order. -/
def stubFunctionNames : List String :=
  ["NvEncOpenEncodeSession", "NvEncGetEncodeGUIDCount", "NvEncGetEncodeGUIDs",
   "NvEncGetEncodeProfileGUIDCount", "NvEncGetEncodeProfileGUIDs",
   "NvEncGetInputFormatCount", "NvEncGetInputFormats", "NvEncGetEncodeCaps",
   "NvEncGetEncodePresetCount", "NvEncGetEncodePresetGUIDs",
   "NvEncGetEncodePresetConfig", "NvEncGetEncodePresetConfigEx",
   "NvEncInitializeEncoder", "NvEncCreateInputBuffer", "NvEncDestroyInputBuffer",
   "NvEncSetIOCudaStreams", "NvEncCreateBitstreamBuffer",
   "NvEncDestroyBitstreamBuffer", "NvEncEncodePicture", "NvEncLockBitstream",
   "NvEncUnlockBitstream", "NvEncRestoreEncoderState", "NvEncLockInputBuffer",
   "NvEncUnlockInputBuffer", "NvEncGetEncodeStats", "NvEncGetSequenceParams",
   "NvEncGetSequenceParamEx", "NvEncRegisterAsyncEvent",
   "NvEncUnregisterAsyncEvent", "NvEncMapInputResource",
   "NvEncUnmapInputResource", "NvEncDestroyEncoder", "NvEncInvalidateRefFrames",
   "NvEncOpenEncodeSessionEx", "NvEncRegisterResource",
   "NvEncUnregisterResource", "NvEncReconfigureEncoder", "NvEncCreateMVBuffer",
   "NvEncDestroyMVBuffer", "NvEncRunMotionEstimationOnly",
   "NvEncodeAPIGetMaxSupportedVersion", "NvEncLookaheadPicture",
   "NvEncodeAPICreateInstance"]

theorem exec_eq (c : Call) (m : Mem) : exec c m = (0, m) := by
  cases c <;> rfl

theorem run_eq (cs : List Call) (m : Mem) : run cs m = m := by
  induction cs generalizing m with
  | nil => rfl
  | cons c cs ih =>
    show run cs (exec c m).2 = m
    rw [exec_eq]
    exact ih m

theorem runSched_eq (sched : List (Nat × Call)) (m : Mem) : runSched sched m = m := by
  unfold runSched
  exact run_eq _ m

/-- Does the character list `p` occur contiguously inside `l`? -/
def charsContain (p : List Char) : List Char → Bool
  | [] => p.isEmpty
  | c :: t => p.isPrefixOf (c :: t) || charsContain p t

/-- Modelled from the spec side of the refinement claim C5: a function
name counts as an encoder-state-save entry point when it contains the
word "Save", following the vendor naming convention used by every
function in the file (the save half of the spec's "encoder-state
save/restore" entry). -/
def specCoversStateSave (n : String) : Bool :=
  charsContain "Save".toList n.toList

/-- Modelled from the spec side of the refinement claim C5: the entry
points of the spec's interface enumeration, resolved to the vendor
function names used in the source.  The "encoder-state save/restore"
entry appears here only through its restore half; the save half is
expressed separately by `specCoversStateSave`. -/
def specEnumeratedNames : List String :=
  ["NvEncOpenEncodeSession", "NvEncOpenEncodeSessionEx",
   "NvEncGetEncodeGUIDCount", "NvEncGetEncodeGUIDs",
   "NvEncGetEncodeProfileGUIDCount", "NvEncGetEncodeProfileGUIDs",
   "NvEncGetInputFormatCount", "NvEncGetInputFormats", "NvEncGetEncodeCaps",
   "NvEncGetEncodePresetCount", "NvEncGetEncodePresetGUIDs",
   "NvEncGetEncodePresetConfig", "NvEncGetEncodePresetConfigEx",
   "NvEncInitializeEncoder", "NvEncReconfigureEncoder",
   "NvEncCreateInputBuffer", "NvEncDestroyInputBuffer",
   "NvEncCreateBitstreamBuffer", "NvEncDestroyBitstreamBuffer",
   "NvEncCreateMVBuffer", "NvEncDestroyMVBuffer",
   "NvEncRegisterResource", "NvEncUnregisterResource",
   "NvEncMapInputResource", "NvEncUnmapInputResource",
   "NvEncEncodePicture", "NvEncLockBitstream", "NvEncUnlockBitstream",
   "NvEncLockInputBuffer", "NvEncUnlockInputBuffer",
   "NvEncGetSequenceParams", "NvEncGetSequenceParamEx",
   "NvEncRegisterAsyncEvent", "NvEncUnregisterAsyncEvent",
   "NvEncRestoreEncoderState", "NvEncGetEncodeStats",
   "NvEncInvalidateRefFrames", "NvEncRunMotionEstimationOnly",
   "NvEncLookaheadPicture", "NvEncodeAPIGetMaxSupportedVersion",
   "NvEncDestroyEncoder", "NvEncodeAPICreateInstance"]

/-- Claim C5 exactly as stated: the stub surface provides every entry
of the spec's enumeration, including a dedicated encoder-state-save
entry point alongside the restore one. -/
def claimC5SurfaceComplete : Prop :=
  specEnumeratedNames.all (fun n => stubFunctionNames.contains n) = true ∧
  stubFunctionNames.any (fun n => specCoversStateSave n) = true

/-- Claim C1: every function in the stub surface, called on any input
(null and zero-valued handles and pointers included) and any memory,
returns the numeric success status code 0; no call ever returns a
non-zero status. -/
theorem every_stub_call_returns_success (c : Call) (m : Mem) : (exec c m).1 = 0 := by
  rw [exec_eq]

/-- Claim C2: no stub function writes through any pointer: after any
call, every memory location holds exactly the value it held before the
call, so every output parameter keeps the value the caller initialized
it to. -/
theorem no_stub_writes_any_output (c : Call) (m : Mem) (p : Nat) : (exec c m).2 p = m p := by
  rw [exec_eq]

/-- Claim C3: every stub call is a total function of its arguments and
the memory, returning success unconditionally with the memory intact —
and its result does not depend on the call's arguments at all, so no
argument is ever read, validated, or dereferenced and no call can
fault. -/
theorem stub_calls_total_never_fault (c c' : Call) (m : Mem) :
    exec c m = (0, m) ∧ exec c m = exec c' m := by
  rw [exec_eq, exec_eq]
  exact ⟨rfl, rfl⟩

/-- Claim C4: calls are stateless, idempotent, and order-independent:
any prior sequence of calls, in any order and with any repetition,
leaves the memory exactly as it started, and a call after any such
history returns the same status and memory effect as if it were the
only call ever made. -/
theorem stub_calls_stateless_order_independent (pre : List Call) (c : Call) (m : Mem) :
    run pre m = m ∧ exec c (run pre m) = exec c m := by
  refine ⟨run_eq pre m, ?_⟩
  rw [run_eq]

/-- Claim C5, counterexample: the claim demands a dedicated
encoder-state-save entry point, but no function defined in the file has
one (no name contains "Save"; only `NvEncRestoreEncoderState` exists),
so the claimed surface coverage is false. -/
theorem no_state_save_entry_point : ¬ claimC5SurfaceComplete := by
  intro h
  have hsave := h.2
  revert hsave
  decide

/-- Claim C5, amended: the stub surface provides a linkable function
for every entry of the spec's enumeration with one exception — there is
no dedicated encoder-state-save entry point, only the restore one
(`NvEncRestoreEncoderState`) — and every call returns success. -/
theorem stub_surface_covers_enumeration_except_save :
    specEnumeratedNames.all (fun n => stubFunctionNames.contains n) = true ∧
    stubFunctionNames.contains "NvEncRestoreEncoderState" = true ∧
    stubFunctionNames.any (fun n => specCoversStateSave n) = false ∧
    ∀ (c : Call) (m : Mem), (exec c m).1 = 0 := by
  refine ⟨by decide, by decide, by decide, ?_⟩
  intro c m
  rw [exec_eq]

/-- Claim C6: the encode-GUID-count query called with a null encoder
handle and a non-null output count pointer returns success and leaves
the count pointee equal to whatever the caller stored there before the
call. -/
theorem getEncodeGUIDCount_null_encoder_untouched (countPtr : Ptr) (m : Mem)
    (h : countPtr ≠ 0) :
    (NvEncGetEncodeGUIDCount 0 countPtr m).1 = 0 ∧
    (NvEncGetEncodeGUIDCount 0 countPtr m).2 countPtr = m countPtr :=
  ⟨rfl, rfl⟩

/-- Witness for claim C6 at the concrete pointer 1 and a memory storing
7 everywhere. -/
theorem getEncodeGUIDCount_null_encoder_untouched_witness :
    (1 : Ptr) ≠ 0 ∧
    ((NvEncGetEncodeGUIDCount 0 1 (fun _ => 7)).1 = 0 ∧
     (NvEncGetEncodeGUIDCount 0 1 (fun _ => 7)).2 1 = 7) :=
  ⟨by decide, getEncodeGUIDCount_null_encoder_untouched 1 (fun _ => 7) (by decide)⟩

/-- Claim C7: destroying an encoder with any handle value — in
particular one never produced by any prior sequence of stub calls —
returns success and never touches the handle or the memory, so no call
can crash. -/
theorem destroyEncoder_any_handle_safe (pre : List Call) (handle : Ptr) (m : Mem) :
    NvEncDestroyEncoder handle (run pre m) = (0, run pre m) := rfl

/-- Claim C8: the function-list factory returns success for every
input, a null function-list pointer included, and never writes any
field of the function-list structure: every memory location keeps its
prior value. -/
theorem createInstance_success_no_populate (functionList : Ptr) (m : Mem) (p : Nat) :
    (NvEncodeAPICreateInstance functionList m).1 = 0 ∧
    (NvEncodeAPICreateInstance functionList m).2 p = m p :=
  ⟨rfl, rfl⟩

/-- Claim C9: for any interleaved schedule of calls from any number of
callers, the shared memory is left exactly as it started and every
call's result equals its result in isolation: concurrent executions
cannot interfere, as no stub reads or writes shared mutable state. -/
theorem concurrent_stub_calls_no_interference (sched : List (Nat × Call)) (c : Call) (m : Mem) :
    runSched sched m = m ∧ exec c (runSched sched m) = exec c m := by
  refine ⟨runSched_eq sched m, ?_⟩
  rw [runSched_eq]

/-- Claim C10: the stub surface also defines `NvEncSetIOCudaStreams`, a
function absent from the spec's interface enumeration; like every other
stub it returns success on all inputs and has no effect on memory or on
its stream arguments. -/
theorem setIOCudaStreams_extra_stub_noop :
    "NvEncSetIOCudaStreams" ∈ stubFunctionNames ∧
    "NvEncSetIOCudaStreams" ∉ specEnumeratedNames ∧
    ∀ (encoder inputStream outputStream : Ptr) (m : Mem),
      NvEncSetIOCudaStreams encoder inputStream outputStream m = (0, m) :=
  ⟨by decide, by decide, fun _ _ _ _ => rfl⟩

end NvStub
